import Mathlib

/-!
# Verification of the detection post-processing pipeline

Shallow embedding of the first-party logic of `src/app/onnx-test.tsx`:
the detection decoder inside `runDetection`, the busy-flag state machine
of the component, and the coordinate projection in `renderBoxes`.
Numeric values carried by the model output are embedded as rationals
(`ℚ`); all operations the code performs on them (floor, comparison,
multiplication, subtraction) are exact on the inputs the claims concern.
-/

/-- The fixed ordered class-label table `CLASSES` (onnx-test.tsx lines 9-22). -/
def CLASSES : List String :=
  ["person", "bicycle", "car", "motorcycle", "airplane", "bus", "train", "truck",
   "boat", "traffic light", "fire hydrant", "stop sign", "parking meter", "bench",
   "bird", "cat", "dog", "horse", "sheep", "cow", "elephant", "bear", "zebra",
   "giraffe", "backpack", "umbrella", "handbag", "tie", "suitcase", "frisbee",
   "skis", "snowboard", "sports ball", "kite", "baseball bat", "baseball glove",
   "skateboard", "surfboard", "tennis racket", "bottle", "wine glass", "cup",
   "fork", "knife", "spoon", "bowl", "banana", "apple", "sandwich", "orange",
   "broccoli", "carrot", "hot dog", "pizza", "donut", "cake", "chair", "couch",
   "potted plant", "bed", "dining table", "toilet", "tv", "laptop", "mouse",
   "remote", "keyboard", "cell phone", "microwave", "oven", "toaster", "sink",
   "refrigerator", "book", "clock", "vase", "scissors", "teddy bear", "hair drier",
   "toothbrush"]

/-- `interface Detection` (onnx-test.tsx lines 26-30).  The `class` field is
named `cls` because `class` is a Lean keyword; it holds the already-floored
class id, so it is an integer. -/
structure Detection where
  cls : ℤ
  confidence : ℚ
  bbox : List ℚ
  deriving DecidableEq, Repr

/-- `const valuesPerBox = 6` (line 114): 4 coords + score + class_id. -/
def valuesPerBox : ℕ := 6

/-- Number of iterations of the decode loop
`for (let i = 0; i < numDetections; i++)` where
`numDetections = output.length / valuesPerBox` is exact (non-integer when
the length is not a multiple of 6).  The loop body runs for exactly those
naturals `i` with `i < len/6`, i.e. `⌈len/6⌉` times. -/
def numIterations (len : ℕ) : ℕ := ⌈(len : ℚ) / (valuesPerBox : ℚ)⌉₊

/-- `const classId = Math.floor(output[offset + 5])` (line 120).  Array reads
are modelled as total with default `0`; the bounds theorem below shows the
default is never consulted when the length is a multiple of 6. -/
def windowClassId (output : List ℚ) (i : ℕ) : ℤ :=
  ⌊output.getD (i * valuesPerBox + 5) 0⌋

/-- The rejection test `classId < 0 || classId >= CLASSES.length` (line 123). -/
def windowInvalid (output : List ℚ) (i : ℕ) : Bool :=
  decide (windowClassId output i < 0) ||
    decide ((CLASSES.length : ℤ) ≤ windowClassId output i)

/-- The Detection pushed for window `i` (lines 125-134): the four bbox
components and the confidence are copied verbatim from the window. -/
def windowDet (output : List ℚ) (i : ℕ) : Detection :=
  { bbox := [output.getD (i * valuesPerBox) 0,
             output.getD (i * valuesPerBox + 1) 0,
             output.getD (i * valuesPerBox + 2) 0,
             output.getD (i * valuesPerBox + 3) 0],
    confidence := output.getD (i * valuesPerBox + 4) 0,
    cls := windowClassId output i }

/-- One iteration of the decode loop body (lines 117-135): skip the window if
its class id is invalid, otherwise emit exactly one Detection. -/
def decodeWindow (output : List ℚ) (i : ℕ) : Option Detection :=
  if windowInvalid output i then none else some (windowDet output i)

/-- The whole decode loop (lines 113-135): iterate windows in order,
collecting the emitted detections. -/
def decodeLoop (output : List ℚ) : List Detection :=
  (List.range (numIterations output.length)).filterMap (decodeWindow output)

/-- The guard `if (!results.output0?.data) throw new Error("No detection results")`
(lines 105-107) followed by the decode loop: an absent output array raises,
a present (possibly empty) array is decoded. -/
def decodeResults (data? : Option (List ℚ)) : Except String (List Detection) :=
  match data? with
  | none => Except.error "No detection results"
  | some output => Except.ok (decodeLoop output)

/-- Pixel rectangle produced at render time. -/
structure PixelRect where
  x : ℚ
  y : ℚ
  width : ℚ
  height : ℚ
  deriving DecidableEq, Repr

/-- Coordinate projection in `renderBoxes` (lines 154, 158-161):
`const [x1, y1, x2, y2] = det.bbox` then
`boxX = x1*screenWidth; boxY = y1*screenHeight;
boxWidth = (x2-x1)*screenWidth; boxHeight = (y2-y1)*screenHeight`. -/
def projectBox (bbox : List ℚ) (screenWidth screenHeight : ℚ) : PixelRect :=
  let x1 := bbox.getD 0 0
  let y1 := bbox.getD 1 0
  let x2 := bbox.getD 2 0
  let y2 := bbox.getD 3 0
  { x := x1 * screenWidth,
    y := y1 * screenHeight,
    width := (x2 - x1) * screenWidth,
    height := (y2 - y1) * screenHeight }

/- ### State machine of the component -/

/-- The mutable component state relevant to a detection cycle:
`session` and `cameraRef` record whether those references are non-null,
the rest mirror the React state hooks (lines 35-41). -/
structure AppState where
  session : Bool
  cameraRef : Bool
  isProcessing : Bool
  detections : List Detection
  error : Option String
  deriving DecidableEq, Repr

/-- External calls a detection cycle can issue, in program order:
`takePictureAsync`, `ImageManipulator.manipulateAsync`, `session.run`. -/
inductive ExtCall where
  | takePicture
  | manipulate
  | sessionRun
  deriving DecidableEq, Repr

/-- Outcome of the external world during one cycle: either one of the
awaited calls throws (with the thrown message), or the image pipeline
succeeds but yields no base64 data (line 84), or inference completes and
`output0.data` is either absent or a flat array. -/
inductive CycleEnv where
  | captureError (msg : String)
  | manipulateError (msg : String)
  | prepNoBase64
  | inferError (msg : String)
  | inferResult (data? : Option (List ℚ))
  deriving DecidableEq, Repr

/-- One invocation of `runDetection` (lines 63-146), modelled as an atomic
step from component state to component state, parameterised by the
behaviour of the external calls, and returning the list of external calls
actually issued.  The guard on line 64 returns immediately when the
session or camera ref is null or a cycle is already in flight; otherwise
`isProcessing` is set, `error` is cleared, the body runs, any thrown error
is caught and surfaced as `"Detection failed: " + message`, and the
`finally` block resets `isProcessing`. -/
def runDetection (s : AppState) (env : CycleEnv) : AppState × List ExtCall :=
  if s.session = false ∨ s.cameraRef = false ∨ s.isProcessing = true then
    (s, [])
  else
    let s1 : AppState := { s with isProcessing := true, error := none }
    match env with
    | CycleEnv.captureError m =>
        ({ s1 with error := some ("Detection failed: " ++ m),
                   isProcessing := false },
         [ExtCall.takePicture])
    | CycleEnv.manipulateError m =>
        ({ s1 with error := some ("Detection failed: " ++ m),
                   isProcessing := false },
         [ExtCall.takePicture, ExtCall.manipulate])
    | CycleEnv.prepNoBase64 =>
        ({ s1 with error := some ("Detection failed: " ++ "Failed to process image"),
                   isProcessing := false },
         [ExtCall.takePicture, ExtCall.manipulate])
    | CycleEnv.inferError m =>
        ({ s1 with error := some ("Detection failed: " ++ m),
                   isProcessing := false },
         [ExtCall.takePicture, ExtCall.manipulate, ExtCall.sessionRun])
    | CycleEnv.inferResult data? =>
        match decodeResults data? with
        | Except.error m =>
            ({ s1 with error := some ("Detection failed: " ++ m),
                       isProcessing := false },
             [ExtCall.takePicture, ExtCall.manipulate, ExtCall.sessionRun])
        | Except.ok dets =>
            ({ s1 with detections := dets, isProcessing := false },
             [ExtCall.takePicture, ExtCall.manipulate, ExtCall.sessionRun])

/-- Modelled from the spec: the claim C6 reads "truncated to an integer
(rounded toward zero)"; this is truncation toward zero on rationals, to be
compared with the floor the source actually computes. -/
def specTruncTowardZero (v : ℚ) : ℤ :=
  if 0 ≤ v then ⌊v⌋ else ⌈v⌉

/- ### Helper lemmas -/

/-- The decode loop runs `⌈len/6⌉` iterations, i.e. `(len+5)/6` in natural
division. -/
lemma numIterations_eq (len : ℕ) : numIterations len = (len + 5) / 6 := by
  have h : ∀ i : ℕ, i < numIterations len ↔ 6 * i < len := by
    intro i
    have h6 : ((valuesPerBox : ℕ) : ℚ) = 6 := by norm_num [valuesPerBox]
    rw [numIterations, Nat.lt_ceil, lt_div_iff₀ (by rw [h6]; norm_num), h6]
    rw [show (i : ℚ) * 6 = ((6 * i : ℕ) : ℚ) by push_cast; ring]
    exact Nat.cast_lt
  have a := h ((len + 5) / 6)
  have b := h (numIterations len)
  omega

lemma filterMap_ite {α β : Type} (c : α → Bool) (g : α → β) (l : List α) :
    l.filterMap (fun i => if c i then none else some (g i)) =
      (l.filter (fun i => !c i)).map g := by
  induction l with
  | nil => rfl
  | cons a t ih =>
      cases h : c a <;> simp [List.filterMap_cons, List.filter_cons, h, ih]

/-- Structure of the decode loop as filter-then-map over window indices. -/
lemma decodeLoop_eq_filter_map (output : List ℚ) :
    decodeLoop output =
      ((List.range (numIterations output.length)).filter
          (fun i => !windowInvalid output i)).map (windowDet output) := by
  unfold decodeLoop decodeWindow
  exact filterMap_ite _ _ _

lemma windowInvalid_iff (output : List ℚ) (i : ℕ) :
    windowInvalid output i = true ↔
      (windowClassId output i < 0 ∨ (CLASSES.length : ℤ) ≤ windowClassId output i) := by
  simp [windowInvalid]

lemma decodeWindow_eq_none_iff (output : List ℚ) (i : ℕ) :
    decodeWindow output i = none ↔ windowInvalid output i = true := by
  unfold decodeWindow
  cases h : windowInvalid output i <;> simp [h]

/-- The model output of the spec's end-to-end example. -/
def exampleOutput : List ℚ :=
  [0.1, 0.1, 0.4, 0.4, 0.9, 0,
   0.5, 0.5, 0.9, 0.9, 0.4, 16,
   0.1, 0.1, 0.2, 0.2, 0.99, 999]

/- ### Claim theorems -/

/-- C1: for every flat output array whose length is a multiple of 6 (say
`6*n`), decoding considers exactly `n` stride-6 windows; the result is
exactly the windows that pass the class-validity test, each yielding one
Detection, in original array order; and every emitted Detection's class is
a valid index into the 80-entry label table. -/
theorem decode_partition (output : List ℚ) (n : ℕ) (h : output.length = 6 * n) :
    CLASSES.length = 80 ∧
    numIterations output.length = n ∧
    decodeLoop output =
      ((List.range n).filter (fun i => !windowInvalid output i)).map (windowDet output) ∧
    (∀ i : ℕ, decodeWindow output i = none ↔
      (windowClassId output i < 0 ∨ (CLASSES.length : ℤ) ≤ windowClassId output i)) ∧
    ∀ d ∈ decodeLoop output, 0 ≤ d.cls ∧ d.cls < (CLASSES.length : ℤ) := by
  have hn : numIterations output.length = n := by
    rw [h, numIterations_eq]
    omega
  refine ⟨by decide, hn, by rw [decodeLoop_eq_filter_map, hn],
    fun i => by rw [decodeWindow_eq_none_iff, windowInvalid_iff], ?_⟩
  intro d hd
  rw [decodeLoop_eq_filter_map] at hd
  simp only [List.mem_map, List.mem_filter] at hd
  obtain ⟨i, ⟨-, hvalid⟩, rfl⟩ := hd
  have hfalse : windowInvalid output i = false := by
    cases hw : windowInvalid output i
    · rfl
    · rw [hw] at hvalid
      exact absurd hvalid (by decide)
  have hnot : ¬(windowClassId output i < 0 ∨ (CLASSES.length : ℤ) ≤ windowClassId output i) := by
    rw [← windowInvalid_iff, hfalse]
    exact Bool.false_ne_true
  push_neg at hnot
  exact hnot

/-- Witness for C1 at the concrete 18-element example array. -/
theorem decode_partition_witness : numIterations exampleOutput.length = 3 :=
  (decode_partition exampleOutput 3 (by decide)).2.1

/-- C2: coordinate projection is the pure linear map
`(box, W, H) ↦ (x1*W, y1*H, (x2-x1)*W, (y2-y1)*H)` for every input box and
viewport; no clamping to the viewport is performed, as the two concrete
instances (including the off-screen box) show. -/
theorem projectBox_linear :
    (∀ x1 y1 x2 y2 W H : ℚ,
        projectBox [x1, y1, x2, y2] W H =
          { x := x1 * W, y := y1 * H,
            width := (x2 - x1) * W, height := (y2 - y1) * H }) ∧
    (∀ W H : ℚ,
        projectBox [0, 0, 1, 1] W H = { x := 0, y := 0, width := W, height := H }) ∧
    projectBox [-0.5, 0, 0.5, 0.5] 100 100 =
      { x := -50, y := 0, width := 100, height := 50 } := by
  refine ⟨fun x1 y1 x2 y2 W H => rfl, fun W H => ?_, ?_⟩
  · simp [projectBox]
  · norm_num [projectBox]

/-- C4: an absent (`null`/`undefined`) output array signals the
`NoDetectionData` error ("No detection results"); a present but empty
array decodes successfully to the empty detection sequence. -/
theorem decodeResults_absent_vs_empty :
    decodeResults none = Except.error "No detection results" ∧
    decodeResults (some []) = Except.ok ([] : List Detection) := by
  refine ⟨rfl, ?_⟩
  simp [decodeResults, decodeLoop, numIterations_eq]

/-- C3: a detection request issued while a cycle is in flight
(`isProcessing = true`) is a complete no-op: the state (detections list
included) is unchanged and no external call — in particular no inference
call — is made; conversely, any invocation that does start a cycle was
issued from the idle state with a live session and camera ref. -/
theorem runDetection_busy_noop (s : AppState) (env : CycleEnv) :
    (s.isProcessing = true → runDetection s env = (s, [])) ∧
    ((runDetection s env).2 ≠ [] →
      s.isProcessing = false ∧ s.session = true ∧ s.cameraRef = true) := by
  by_cases hg : s.session = false ∨ s.cameraRef = false ∨ s.isProcessing = true
  · constructor
    · intro _
      simp [runDetection, hg]
    · intro hne
      exact absurd (by simp [runDetection, hg]) hne
  · push_neg at hg
    constructor
    · intro hp
      exact absurd hp (by simpa using hg.2.2)
    · intro _
      exact ⟨by simpa using hg.2.2, by simpa using hg.1, by simpa using hg.2.1⟩

/-- Witness for C3: a busy state ignores a request; an idle state accepts one. -/
theorem runDetection_busy_noop_witness :
    runDetection ⟨true, true, true, [], none⟩ (CycleEnv.inferResult (some [])) =
      (⟨true, true, true, [], none⟩, []) ∧
    ((⟨true, true, false, [], none⟩ : AppState).isProcessing = false ∧
      (⟨true, true, false, [], none⟩ : AppState).session = true ∧
      (⟨true, true, false, [], none⟩ : AppState).cameraRef = true) :=
  ⟨(runDetection_busy_noop ⟨true, true, true, [], none⟩ (CycleEnv.inferResult (some []))).1 rfl,
   (runDetection_busy_noop ⟨true, true, false, [], none⟩ (CycleEnv.inferResult (some []))).2
     (by simp [runDetection, decodeResults])⟩

/-- C5: when a started cycle fails because image preparation yields no data
(`ImagePrepError`, message "Failed to process image") or the inference
output is absent (`NoDetectionData`, message "No detection results"), the
prior detections are left unchanged, a user-visible error message is set,
the busy flag returns to idle (Ready), the session survives, and the cycle
captured exactly one photo — no automatic retry. -/
theorem runDetection_recoverable_failure (s : AppState) (env : CycleEnv)
    (hs : s.session = true) (hc : s.cameraRef = true) (hp : s.isProcessing = false)
    (hfail : env = CycleEnv.prepNoBase64 ∨ env = CycleEnv.inferResult none) :
    (runDetection s env).1.detections = s.detections ∧
    (runDetection s env).1.error =
      some ("Detection failed: " ++
        (if env = CycleEnv.prepNoBase64 then "Failed to process image"
         else "No detection results")) ∧
    (runDetection s env).1.isProcessing = false ∧
    (runDetection s env).1.session = s.session ∧
    (runDetection s env).1.cameraRef = s.cameraRef ∧
    (runDetection s env).2.count ExtCall.takePicture = 1 := by
  rcases hfail with rfl | rfl <;>
    simp [runDetection, hs, hc, hp, decodeResults, List.count_cons]

/-- Witness for C5 at a concrete Ready state and the image-prep failure. -/
theorem runDetection_recoverable_failure_witness :
    (runDetection ⟨true, true, false, [], none⟩ CycleEnv.prepNoBase64).1.detections = [] ∧
    (runDetection ⟨true, true, false, [], none⟩ CycleEnv.prepNoBase64).1.isProcessing = false := by
  have h := runDetection_recoverable_failure ⟨true, true, false, [], none⟩
    CycleEnv.prepNoBase64 rfl rfl rfl (Or.inl rfl)
  exact ⟨h.1, h.2.2.1⟩

/-- Any invocation from a Ready state issues at least one external call. -/
lemma runDetection_starts (s : AppState) (env : CycleEnv)
    (hs : s.session = true) (hc : s.cameraRef = true) (hp : s.isProcessing = false) :
    (runDetection s env).2 ≠ [] := by
  cases env with
  | inferResult d =>
      cases hd : decodeResults d <;> simp [runDetection, hs, hc, hp, hd]
  | captureError m => simp [runDetection, hs, hc, hp]
  | manipulateError m => simp [runDetection, hs, hc, hp]
  | prepNoBase64 => simp [runDetection, hs, hc, hp]
  | inferError m => simp [runDetection, hs, hc, hp]

/-- A started cycle ends idle with session and camera ref intact. -/
lemma runDetection_resets (s : AppState) (env : CycleEnv)
    (hs : s.session = true) (hc : s.cameraRef = true) (hp : s.isProcessing = false) :
    (runDetection s env).1.isProcessing = false ∧
    (runDetection s env).1.session = true ∧
    (runDetection s env).1.cameraRef = true := by
  cases env with
  | inferResult d =>
      cases hd : decodeResults d <;> simp [runDetection, hs, hc, hp, hd]
  | captureError m => simp [runDetection, hs, hc, hp]
  | manipulateError m => simp [runDetection, hs, hc, hp]
  | prepNoBase64 => simp [runDetection, hs, hc, hp]
  | inferError m => simp [runDetection, hs, hc, hp]

/-- C10: every invocation that starts a cycle — whatever the external
outcome, success or any error — finishes with the busy flag reset to
false, and from the resulting state a subsequent detection request is
accepted (it issues external calls), so no failure latches the system
busy. -/
theorem runDetection_busy_released (s : AppState) (env env' : CycleEnv)
    (hs : s.session = true) (hc : s.cameraRef = true) (hp : s.isProcessing = false) :
    (runDetection s env).1.isProcessing = false ∧
    (runDetection (runDetection s env).1 env').2 ≠ [] := by
  have key := runDetection_resets s env hs hc hp
  exact ⟨key.1, runDetection_starts _ env' key.2.1 key.2.2 key.1⟩

/-- Witness for C10: a failing cycle releases the busy flag and the next
request starts. -/
theorem runDetection_busy_released_witness :
    (runDetection ⟨true, true, false, [], none⟩ CycleEnv.prepNoBase64).1.isProcessing = false ∧
    (runDetection (runDetection ⟨true, true, false, [], none⟩ CycleEnv.prepNoBase64).1
      (CycleEnv.inferResult none)).2 ≠ [] :=
  runDetection_busy_released ⟨true, true, false, [], none⟩ CycleEnv.prepNoBase64
    (CycleEnv.inferResult none) rfl rfl rfl

/-- Counterexample to C6 as stated: on the single window
`[0, 0, 0, 0, 0.5, -0.5]` the class index the code compares is
`Math.floor(-0.5) = -1` (so the window is rejected and decoding yields
nothing), whereas truncation toward zero of `-0.5` is `0`, a valid index —
so the compared index is not the value truncated toward zero. -/
theorem windowClassId_trunc_counterexample :
    windowClassId [0, 0, 0, 0, 0.5, -0.5] 0 = -1 ∧
    specTruncTowardZero (-0.5 : ℚ) = 0 ∧
    windowClassId [0, 0, 0, 0, 0.5, -0.5] 0 ≠ specTruncTowardZero (-0.5 : ℚ) ∧
    windowInvalid [0, 0, 0, 0, 0.5, -0.5] 0 = true ∧
    decodeLoop [0, 0, 0, 0, 0.5, -0.5] = [] := by
  have h1 : windowClassId [0, 0, 0, 0, 0.5, -0.5] 0 = -1 := by
    norm_num [windowClassId, valuesPerBox, List.getD]
  have h2 : specTruncTowardZero (-0.5 : ℚ) = 0 := by
    norm_num [specTruncTowardZero]
  have h4 : windowInvalid [0, 0, 0, 0, 0.5, -0.5] 0 = true := by
    rw [windowInvalid_iff, h1]
    norm_num
  refine ⟨h1, h2, by rw [h1, h2]; decide, h4, ?_⟩
  have hlen : numIterations (6 : ℕ) = 1 := by rw [numIterations_eq]
  simp [decodeLoop, List.length_cons, hlen, List.range_succ, decodeWindow, h4]

/-- C6 amended: the class index compared against the validity bounds is
`Math.floor` of the window's sixth value — rounded toward negative
infinity, not toward zero — and a window is excluded exactly when that
floored index is negative or at least the label-table length; floor
coincides with truncation toward zero whenever the value is non-negative. -/
theorem windowClassId_floor (output : List ℚ) (i : ℕ) :
    windowClassId output i = ⌊output.getD (i * valuesPerBox + 5) 0⌋ ∧
    (decodeWindow output i = none ↔
      (windowClassId output i < 0 ∨ (CLASSES.length : ℤ) ≤ windowClassId output i)) ∧
    ∀ v : ℚ, 0 ≤ v → ⌊v⌋ = specTruncTowardZero v := by
  refine ⟨rfl, by rw [decodeWindow_eq_none_iff, windowInvalid_iff], ?_⟩
  intro v hv
  simp [specTruncTowardZero, hv]

/-- Witness for the amended C6: floor agrees with truncation toward zero
at the non-negative input `1.5`. -/
theorem windowClassId_floor_witness : ⌊(1.5 : ℚ)⌋ = specTruncTowardZero (1.5 : ℚ) :=
  (windowClassId_floor [] 0).2.2 (1.5 : ℚ) (by norm_num)

/-- C7: no confidence threshold is applied: any window passing the
class-validity check emits exactly the Detection whose confidence is the
window's fifth value verbatim and whose bbox is its first four values
verbatim; and the keep/drop decision reads only the sixth slot, so any
array agreeing there — whatever confidence it carries — is also kept. -/
theorem decode_no_threshold (output : List ℚ) (i : ℕ)
    (h : windowInvalid output i = false) :
    decodeWindow output i =
      some { cls := windowClassId output i,
             confidence := output.getD (i * valuesPerBox + 4) 0,
             bbox := [output.getD (i * valuesPerBox) 0,
                      output.getD (i * valuesPerBox + 1) 0,
                      output.getD (i * valuesPerBox + 2) 0,
                      output.getD (i * valuesPerBox + 3) 0] } ∧
    ∀ output' : List ℚ,
      output'.getD (i * valuesPerBox + 5) 0 = output.getD (i * valuesPerBox + 5) 0 →
      windowInvalid output' i = false := by
  constructor
  · simp [decodeWindow, h, windowDet]
  · intro output' h5
    have hcid : windowClassId output' i = windowClassId output i := by
      unfold windowClassId
      rw [h5]
    simp only [windowInvalid, hcid]
    simpa [windowInvalid] using h

/-- Witness for C7: the first window of the example array, whose
confidence 0.9 is copied verbatim. -/
theorem decode_no_threshold_witness :
    decodeWindow exampleOutput 0 =
      some { cls := 0, confidence := 0.9, bbox := [0.1, 0.1, 0.4, 0.4] } := by
  have h := decode_no_threshold exampleOutput 0
    (by rw [← Bool.not_eq_true, windowInvalid_iff]
        norm_num [windowClassId, valuesPerBox, exampleOutput, List.getD, CLASSES])
  rw [h.1]
  norm_num [windowClassId, windowDet, valuesPerBox, exampleOutput, List.getD]

/-- C8: decoding the spec's 18-element example array against the 80-entry
label table yields exactly two detections, classes 0 and 16 in that order
with their windows' values copied verbatim, and the third window is
dropped because its floored class index 999 is out of range. -/
theorem decode_example_end_to_end :
    decodeLoop exampleOutput =
      [{ cls := 0, confidence := 0.9, bbox := [0.1, 0.1, 0.4, 0.4] },
       { cls := 16, confidence := 0.4, bbox := [0.5, 0.5, 0.9, 0.9] }] ∧
    decodeWindow exampleOutput 2 = none ∧
    windowClassId exampleOutput 2 = 999 ∧
    (CLASSES.length : ℤ) ≤ 999 := by
  have hlen : numIterations exampleOutput.length = 3 := by
    rw [show exampleOutput.length = 18 by decide, numIterations_eq]
  have h999 : windowClassId exampleOutput 2 = 999 := by
    norm_num [windowClassId, valuesPerBox, exampleOutput, List.getD]
  have hdrop : decodeWindow exampleOutput 2 = none := by
    rw [decodeWindow_eq_none_iff, windowInvalid_iff, h999]
    norm_num [CLASSES]
  refine ⟨?_, hdrop, h999, by norm_num [CLASSES]⟩
  rw [decodeLoop, hlen]
  norm_num [List.range_succ, List.filterMap_cons, hdrop, decodeWindow, windowInvalid,
    windowDet, windowClassId, valuesPerBox, exampleOutput, List.getD, CLASSES]

/-- C9: under the precondition that the array length is a multiple of 6,
every read of a decode iteration (offsets `6*i` through `6*i + 5`) is in
bounds; the loop runs exactly for the indices `i < length/6` in exact
(rational) arithmetic, i.e. `⌈length/6⌉` iterations; and when the length
is not a multiple of 6 the final partial window reads past the end of the
array. -/
theorem decode_reads_in_bounds (len n : ℕ) :
    (∀ i : ℕ, i < numIterations len ↔ (i : ℚ) < (len : ℚ) / 6) ∧
    numIterations len = (len + 5) / 6 ∧
    (len = 6 * n → ∀ i < numIterations len, i * valuesPerBox + 5 < len) ∧
    (¬(6 ∣ len) → len ≤ (numIterations len - 1) * valuesPerBox + 5) := by
  have h6 : ((valuesPerBox : ℕ) : ℚ) = 6 := by norm_num [valuesPerBox]
  refine ⟨?_, numIterations_eq len, ?_, ?_⟩
  · intro i
    rw [numIterations, Nat.lt_ceil, h6]
  · intro hlen i hi
    subst hlen
    rw [numIterations_eq] at hi
    simp only [valuesPerBox]
    omega
  · intro hdvd
    rw [numIterations_eq]
    simp only [valuesPerBox]
    omega

/-- Witness for C9: with 12 entries (2 windows) the last read is index 11,
in bounds; with 7 entries the lone-and-final partial window reads past the
end. -/
theorem decode_reads_in_bounds_witness :
    (1 * valuesPerBox + 5 < 12) ∧ (7 ≤ (numIterations 7 - 1) * valuesPerBox + 5) :=
  ⟨(decode_reads_in_bounds 12 2).2.2.1 rfl 1 (by rw [numIterations_eq]; norm_num),
   (decode_reads_in_bounds 7 0).2.2.2 (by decide)⟩
